import Mathlib

/-!
Verification development for the tenders-backend alert engine.

The JavaScript sources embedded here:
- `src/models/AlertConfiguration.js` (the predicate evaluator
  `shouldTriggerForTender`, the stats mutators, the `findWeeklyAlerts` query);
- `src/services/schedulerService.js` (the alert-processing orchestrator:
  `processTenderAlerts`, `processDailySummaries`, `processWeeklySummaries`,
  `removeDuplicateTenders`, `groupAlertsByUser`, and the cron registrations);
- `src/services/emailService.js` (the renderers, abstracted to the ordered
  list of record facts each template interpolates).

JavaScript strings are modelled as `List Char`; missing (`undefined`) values
as `Option`; a thrown `TypeError` from member access on `undefined` as
`Except.error ()`. JS truthiness of numbers (0 is falsy) and of strings
(the empty string is falsy) is modelled explicitly where the source relies
on it. Clock reads (`new Date()`) are modelled by an explicit `now`
parameter in epoch milliseconds.
-/

namespace TendersBackend

/-- JavaScript string, modelled as a list of characters. -/
abbrev JStr := List Char

/-- Models `s.toLowerCase()`. -/
def jsToLower (s : JStr) : JStr := s.map Char.toLower

/-- Models `s.includes(sub)`: substring test. -/
def jsIncludes (s sub : JStr) : Bool := decide (sub <:+: s)

/-- Models `s.startsWith(p)`. -/
def jsStartsWith (s p : JStr) : Bool := decide (p <+: s)

/-- Models `s.endsWith(p)`. -/
def jsEndsWith (s p : JStr) : Bool := decide (p <:+ s)

/-- JS truthiness of an optional number: `undefined` and `0` are falsy.
Used for `if (this.estimatedValue.min || this.estimatedValue.max)` and the
days-until-closing bounds in `AlertConfiguration.js`. -/
def natTruthy : Option Nat → Bool
  | none => false
  | some n => n != 0

/-- Models `array.includes(x)` where `x` may be `undefined`: `undefined` is never a
member of an array of strings. -/
def jsOptMem (x : Option String) (l : List String) : Bool :=
  match x with
  | none => false
  | some s => l.contains s

/-- The `keywords.matchType` enum of `AlertConfiguration.js`. -/
inductive MatchType
  | exact
  | starts_with
  | ends_with
  | contains
deriving DecidableEq, Repr

/-- One keyword clause: `{ term, matchType }`. -/
structure Keyword where
  term : JStr
  matchType : MatchType
deriving DecidableEq, Repr

/-- The `locations` filter sets of a configuration. -/
structure Locations where
  provinces : List String
  districts : List String
  cities : List String
deriving DecidableEq, Repr

/-- The `estimatedValue` range filter of a configuration. -/
structure EstimatedValueRange where
  min : Option Nat
  max : Option Nat
  currency : String
deriving DecidableEq, Repr

/-- The `emailSettings.frequency` enum. -/
inductive Frequency
  | immediate
  | daily
  | weekly
deriving DecidableEq, Repr

/-- The `emailSettings` sub-document of a configuration.
`lastSentAt` is an epoch-millisecond timestamp. -/
structure EmailSettings where
  enabled : Bool
  frequency : Frequency
  customEmail : Option String
  lastSentAt : Option Int
  dailySummaryTime : String
deriving DecidableEq, Repr

/-- The `stats` sub-document of a configuration. -/
structure Stats where
  totalMatches : Nat
  emailsSent : Nat
  lastMatchedTender : Option Nat
  lastMatchedAt : Option Int
deriving DecidableEq, Repr

/-- The `advancedFilters` sub-document of a configuration. -/
structure AdvancedFilters where
  excludeKeywords : List JStr
  minDaysUntilClosing : Option Nat
  maxDaysUntilClosing : Option Nat
  includedStatuses : List String
  includedPriorities : List String
deriving DecidableEq, Repr

/-- The subscription feature flags of a user (only the flag the scheduler
reads: `subscription.features.emailAlerts`). -/
structure Features where
  emailAlerts : Bool
deriving DecidableEq, Repr

/-- A user's subscription, as populated onto an alert configuration. -/
structure Subscription where
  features : Features
deriving DecidableEq, Repr

/-- The populated owner of a configuration (`user` after
`.populate('user', 'email subscription')`). -/
structure User where
  id : Nat
  email : String
  firstName : Option String
  name : Option String
  subscription : Option Subscription
deriving DecidableEq, Repr

/-- An alert configuration document (`AlertConfiguration.js` schema).
`user = none` models a populate that found no user. -/
structure AlertConfiguration where
  id : Nat
  user : Option User
  name : String
  isActive : Bool
  keywords : List Keyword
  categories : List String
  locations : Locations
  organizationTypes : List String
  estimatedValue : EstimatedValueRange
  emailSettings : EmailSettings
  stats : Stats
  advancedFilters : AdvancedFilters
deriving DecidableEq, Repr

/-- A tender's `location` sub-document. -/
structure TLocation where
  province : Option String
  district : Option String
  city : Option String
deriving DecidableEq, Repr

/-- A tender's `organization` sub-document. The source field is named
`type`, a Lean keyword, hence `orgType` here. -/
structure Organization where
  orgName : Option String
  orgType : Option String
deriving DecidableEq, Repr

/-- A tender's `dates` sub-document (epoch milliseconds; `closing = none`
models an undefined closing date, which `new Date(undefined)` turns into
an Invalid Date whose NaN comparisons are all false). -/
structure TenderDates where
  published : Option Int
  closing : Option Int
deriving DecidableEq, Repr

/-- A tender's `financials.estimatedValue` sub-document. -/
structure EstimatedValue where
  amount : Nat
  currency : String
deriving DecidableEq, Repr

/-- A tender's `financials` sub-document. -/
structure Financials where
  estimatedValue : Option EstimatedValue
deriving DecidableEq, Repr

/-- A tender record. Every field that JS member access may find
`undefined` is an `Option`. -/
structure Tender where
  id : Nat
  title : Option JStr
  description : Option JStr
  fullTextMarkdown : Option JStr
  category : Option String
  location : Option TLocation
  organization : Option Organization
  dates : Option TenderDates
  financials : Option Financials
  status : Option String
  priority : Option String
deriving DecidableEq, Repr

/-! ## The predicate evaluator `shouldTriggerForTender`

`AlertConfiguration.js` lines 174-276. Each numbered check of the source is
one definition returning `Except Unit Bool`: `.error ()` models a thrown
`TypeError`, `.ok false` models an early `return false`, `.ok true` means
the check passes and evaluation continues. -/

/-- Sequence two checks: a throw or an early `return false` short-circuits. -/
def andThenCheck (c : Except Unit Bool) (rest : Except Unit Bool) : Except Unit Bool :=
  match c with
  | .error e => .error e
  | .ok false => .ok false
  | .ok true => rest

/-- The searchable text `` `${title} ${description} ${fullText}` `` lower-cased
(`AlertConfiguration.js` lines 180-185, repeated at 208-211).
`tender.title.toLowerCase()` throws when `title` is undefined; the other two
parts are guarded by `|| ''` in the source. -/
def textToSearch (t : Tender) : Except Unit JStr :=
  match t.title with
  | none => .error ()
  | some ti =>
      .ok (jsToLower ti ++ [' '] ++ jsToLower (t.description.getD [])
            ++ [' '] ++ jsToLower (t.fullTextMarkdown.getD []))

/-- One keyword clause evaluated against the searchable text
(the `switch (keyword.matchType)` of `AlertConfiguration.js` lines 187-200). -/
def matchKeyword (text : JStr) (k : Keyword) : Bool :=
  let term := jsToLower k.term
  match k.matchType with
  | .exact =>
      jsIncludes text ([' '] ++ term ++ [' ']) || jsStartsWith text (term ++ [' '])
        || jsEndsWith text ([' '] ++ term) || text == term
  | .starts_with => jsIncludes text ([' '] ++ term) || jsStartsWith text term
  | .ends_with => jsIncludes text (term ++ [' ']) || jsEndsWith text term
  | .contains => jsIncludes text term

/-- Check 2: keyword clauses (lines 178-204). Skipped when no clause exists. -/
def checkKeywords (cfg : AlertConfiguration) (t : Tender) : Except Unit Bool :=
  if cfg.keywords.isEmpty then .ok true
  else
    match textToSearch t with
    | .error e => .error e
    | .ok text => .ok (cfg.keywords.any (matchKeyword text))

/-- Check 3: exclude keywords (lines 207-218). -/
def checkExcludeKeywords (cfg : AlertConfiguration) (t : Tender) : Except Unit Bool :=
  if cfg.advancedFilters.excludeKeywords.isEmpty then .ok true
  else
    match textToSearch t with
    | .error e => .error e
    | .ok text =>
        .ok (!(cfg.advancedFilters.excludeKeywords.any fun k => jsIncludes text (jsToLower k)))

/-- Check 4: categories (lines 221-223). -/
def checkCategories (cfg : AlertConfiguration) (t : Tender) : Except Unit Bool :=
  if cfg.categories.isEmpty then .ok true
  else .ok (jsOptMem t.category cfg.categories)

/-- Check 5a: provinces (lines 227-229). `tender.location.province` throws
when `location` is undefined. -/
def checkProvinces (cfg : AlertConfiguration) (t : Tender) : Except Unit Bool :=
  if cfg.locations.provinces.isEmpty then .ok true
  else
    match t.location with
    | none => .error ()
    | some loc => .ok (jsOptMem loc.province cfg.locations.provinces)

/-- Check 5b: districts (lines 230-232). -/
def checkDistricts (cfg : AlertConfiguration) (t : Tender) : Except Unit Bool :=
  if cfg.locations.districts.isEmpty then .ok true
  else
    match t.location with
    | none => .error ()
    | some loc => .ok (jsOptMem loc.district cfg.locations.districts)

/-- Check 5c: cities (lines 233-235). The source guards with
`tender.location.city &&`, so an undefined or empty city skips the check. -/
def checkCities (cfg : AlertConfiguration) (t : Tender) : Except Unit Bool :=
  if cfg.locations.cities.isEmpty then .ok true
  else
    match t.location with
    | none => .error ()
    | some loc =>
        match loc.city with
        | none => .ok true
        | some c => if c = "" then .ok true else .ok (cfg.locations.cities.contains c)

/-- Check 6: organization types (lines 238-240). -/
def checkOrgTypes (cfg : AlertConfiguration) (t : Tender) : Except Unit Bool :=
  if cfg.organizationTypes.isEmpty then .ok true
  else
    match t.organization with
    | none => .error ()
    | some org => .ok (jsOptMem org.orgType cfg.organizationTypes)

/-- Check 7: estimated value range (lines 243-249). The source uses JS
truthiness throughout: a bound of 0 counts as unset and a record amount of
0 counts as missing. -/
def checkValue (cfg : AlertConfiguration) (t : Tender) : Except Unit Bool :=
  if natTruthy cfg.estimatedValue.min || natTruthy cfg.estimatedValue.max then
    match t.financials.bind Financials.estimatedValue with
    | none => .ok true
    | some ev =>
        if ev.amount = 0 then .ok true
        else if natTruthy cfg.estimatedValue.min && decide (ev.amount < cfg.estimatedValue.min.getD 0) then
          .ok false
        else if natTruthy cfg.estimatedValue.max && decide (cfg.estimatedValue.max.getD 0 < ev.amount) then
          .ok false
        else .ok true
  else .ok true

/-- Models `Math.ceil(a / b)` for integer `a` and positive integer `b`. -/
def jsCeilDiv (a b : Int) : Int := -((-a).fdiv b)

/-- Check 8: days until closing (lines 252-263). `tender.dates.closing`
throws when `dates` is undefined; an undefined `closing` yields NaN days,
whose comparisons are all false. -/
def checkDaysUntilClosing (cfg : AlertConfiguration) (t : Tender) (now : Int) : Except Unit Bool :=
  if natTruthy cfg.advancedFilters.minDaysUntilClosing
      || natTruthy cfg.advancedFilters.maxDaysUntilClosing then
    match t.dates with
    | none => .error ()
    | some d =>
        match d.closing with
        | none => .ok true
        | some closing =>
            let days := jsCeilDiv (closing - now) 86400000
            if natTruthy cfg.advancedFilters.minDaysUntilClosing
                && decide (days < (cfg.advancedFilters.minDaysUntilClosing.getD 0 : Int)) then
              .ok false
            else if natTruthy cfg.advancedFilters.maxDaysUntilClosing
                && decide (((cfg.advancedFilters.maxDaysUntilClosing.getD 0 : Int)) < days) then
              .ok false
            else .ok true
  else .ok true

/-- Check 9: included statuses (lines 266-268). -/
def checkStatuses (cfg : AlertConfiguration) (t : Tender) : Except Unit Bool :=
  if cfg.advancedFilters.includedStatuses.isEmpty then .ok true
  else .ok (jsOptMem t.status cfg.advancedFilters.includedStatuses)

/-- Check 10: included priorities (lines 271-273). -/
def checkPriorities (cfg : AlertConfiguration) (t : Tender) : Except Unit Bool :=
  if cfg.advancedFilters.includedPriorities.isEmpty then .ok true
  else .ok (jsOptMem t.priority cfg.advancedFilters.includedPriorities)

/-- The method `shouldTriggerForTender` in full
(`AlertConfiguration.js` lines 174-276): the ordered, short-circuiting
conjunction of all checks, with `now` the clock read of line 254. -/
def shouldTriggerForTender (cfg : AlertConfiguration) (t : Tender) (now : Int) : Except Unit Bool :=
  andThenCheck (.ok cfg.isActive) <|
  andThenCheck (checkKeywords cfg t) <|
  andThenCheck (checkExcludeKeywords cfg t) <|
  andThenCheck (checkCategories cfg t) <|
  andThenCheck (checkProvinces cfg t) <|
  andThenCheck (checkDistricts cfg t) <|
  andThenCheck (checkCities cfg t) <|
  andThenCheck (checkOrgTypes cfg t) <|
  andThenCheck (checkValue cfg t) <|
  andThenCheck (checkDaysUntilClosing cfg t now) <|
  andThenCheck (checkStatuses cfg t) <|
  andThenCheck (checkPriorities cfg t) (.ok true)

/-! ## Stats mutators (`AlertConfiguration.js` lines 279-291) -/

/-- Models `updateStats(tender)`: bump `totalMatches`, record the matched tender. -/
def updateStats (a : AlertConfiguration) (t : Tender) (now : Int) : AlertConfiguration :=
  { a with stats := { a.stats with
      totalMatches := a.stats.totalMatches + 1
      lastMatchedTender := some t.id
      lastMatchedAt := some now } }

/-- Models `incrementEmailSent()`: bump `emailsSent`, stamp `lastSentAt`. -/
def incrementEmailSent (a : AlertConfiguration) (now : Int) : AlertConfiguration :=
  { a with
      stats := { a.stats with emailsSent := a.stats.emailsSent + 1 }
      emailSettings := { a.emailSettings with lastSentAt := some now } }

/-! ## The alert-processing orchestrator (`schedulerService.js`)

The store and the transport are external: fetched alert/tender lists are
parameters, a store write is a pure record update, and `sendFails` says for
which key (`alert.id` in the immediate run, the owner's user id in the
summary runs) the email dispatch throws. -/

/-- One entry of a run's `results.errors` array: the key logged
(`alertId` or `userId`) and the `type` field. -/
structure RunError where
  key : Nat
  errType : String
deriving DecidableEq, Repr

/-- A successfully dispatched notification: the recipient's user id and the
ids of the records it carries (the deduplicated match set of a summary,
or the single tender of an immediate alert). -/
structure SentEmail where
  userId : Nat
  tenderIds : List Nat
deriving DecidableEq, Repr

/-- Does the configuration's populated user hold the
`subscription.features.emailAlerts` entitlement
(`schedulerService.js` line 294: `alert.user.subscription?.features?.emailAlerts`)? -/
def userEntitled (u : User) : Bool :=
  match u.subscription with
  | none => false
  | some s => s.features.emailAlerts

/-- Result of one immediate run (`processTenderAlerts`): the final state of
every configuration in input order, the counters and error list of the
source's `results` object, the delivered emails, and `evaluated`, an
instrumentation list of the ids of configurations on which
`shouldTriggerForTender` was invoked (source line 303) — it records control
flow only and influences nothing. -/
structure ImmediateOutcome where
  alerts : List AlertConfiguration
  processed : Nat
  emailsSent : Nat
  errors : List RunError
  emails : List SentEmail
  evaluated : List Nat
deriving DecidableEq, Repr

/-- Models `processTenderAlerts` (`schedulerService.js` lines 265-374): for each
immediate alert, skip owners without the email entitlement (lines 294-300),
evaluate the predicate (line 303; a throw is the per-alert `catch` of lines
343-354), update match stats before dispatch (line 312), attempt the send
inside its own try/catch (lines 316-338), and count `processed` afterwards
(line 341). The per-alert bodies are independent, so the run is the
pointwise combination of each alert's contribution. -/
def processTenderAlerts (now : Int) (sendFails : Nat → Bool) (t : Tender) :
    List AlertConfiguration → ImmediateOutcome
  | [] => ⟨[], 0, 0, [], [], []⟩
  | a :: rest =>
    let r := processTenderAlerts now sendFails t rest
    match a.user with
    | none => { r with alerts := a :: r.alerts }
    | some u =>
      if !userEntitled u then { r with alerts := a :: r.alerts }
      else
        match shouldTriggerForTender a t now with
        | .error _ =>
            { r with alerts := a :: r.alerts
                     errors := ⟨a.id, "processing"⟩ :: r.errors
                     evaluated := a.id :: r.evaluated }
        | .ok false =>
            { r with alerts := a :: r.alerts, evaluated := a.id :: r.evaluated }
        | .ok true =>
            let a1 := updateStats a t now
            if a1.emailSettings.enabled ∧ a1.emailSettings.frequency = .immediate then
              if sendFails a.id then
                { r with alerts := a1 :: r.alerts
                         processed := r.processed + 1
                         errors := ⟨a.id, "email"⟩ :: r.errors
                         evaluated := a.id :: r.evaluated }
              else
                { r with alerts := incrementEmailSent a1 now :: r.alerts
                         processed := r.processed + 1
                         emailsSent := r.emailsSent + 1
                         emails := ⟨u.id, [t.id]⟩ :: r.emails
                         evaluated := a.id :: r.evaluated }
            else
              { r with alerts := a1 :: r.alerts
                       processed := r.processed + 1
                       evaluated := a.id :: r.evaluated }

/-- Worker of `removeDuplicateTenders`: keep a tender when its id is not in
`seen` (`schedulerService.js` lines 641-651). -/
def removeDupAux (seen : List Nat) : List Tender → List Tender
  | [] => []
  | t :: rest =>
      if t.id ∈ seen then removeDupAux seen rest
      else t :: removeDupAux (t.id :: seen) rest

/-- Models `removeDuplicateTenders(tenders)`: keep the first occurrence of each
tender id. -/
def removeDuplicateTenders (ts : List Tender) : List Tender :=
  removeDupAux [] ts

/-- Models `Array.prototype.filter` with a predicate that can throw: the first
throw aborts the whole filter. Models
`recentTenders.filter(tender => alert.shouldTriggerForTender(tender))`. -/
def jsFilterE (p : α → Except Unit Bool) : List α → Except Unit (List α)
  | [] => .ok []
  | x :: xs =>
    match p x with
    | .error e => .error e
    | .ok b =>
      match jsFilterE p xs with
      | .error e => .error e
      | .ok ys => .ok (if b then x :: ys else ys)

/-- The `matchingTenders` accumulation of a summary run
(`schedulerService.js` lines 414-418): concatenate, per configuration, the
recent tenders it matches; any predicate throw escapes to the per-user
catch. -/
def collectMatches (now : Int) (recent : List Tender) :
    List AlertConfiguration → Except Unit (List Tender)
  | [] => .ok []
  | a :: rest =>
    match jsFilterE (fun t => shouldTriggerForTender a t now) recent with
    | .error e => .error e
    | .ok ms =>
      match collectMatches now recent rest with
      | .error e => .error e
      | .ok rs => .ok (ms ++ rs)

/-- The stats-update loop of a summary run (`schedulerService.js` lines
428-436): for each configuration, re-filter the deduplicated tenders; on a
predicate throw stop the loop with the partial updates kept (the Bool
result); otherwise apply `updateStats` per matched tender and
`incrementEmailSent` once when any matched. -/
def statsLoop (now : Int) (uniq : List Tender) :
    List AlertConfiguration → List AlertConfiguration × Bool
  | [] => ([], false)
  | a :: rest =>
    match jsFilterE (fun t => shouldTriggerForTender a t now) uniq with
    | .error _ => (a :: rest, true)
    | .ok ms =>
      let a2 := if ms.isEmpty then a
                else incrementEmailSent (ms.foldl (fun acc t => updateStats acc t now) a) now
      let p := statsLoop now uniq rest
      (a2 :: p.1, p.2)

/-- Did an evaluation return without throwing? -/
def isOkE : Except Unit Bool → Bool
  | .ok _ => true
  | .error _ => false

/-- Did an evaluation return `true` (JS truthy filter callback)? -/
def okTrue : Except Unit Bool → Bool
  | .ok true => true
  | .ok false => false
  | .error _ => false

/-- The net effect of the stats-update loop on one configuration when no
evaluation throws: `updateStats` once per deduplicated matched tender,
then `incrementEmailSent` when any matched. -/
def dailyStatsUpdate (now : Int) (uniq : List Tender) (a : AlertConfiguration) :
    AlertConfiguration :=
  let ms := uniq.filter fun t => okTrue (shouldTriggerForTender a t now)
  if ms.isEmpty then a
  else incrementEmailSent (ms.foldl (fun acc t => updateStats acc t now) a) now

/-- Outcome of one owner's iteration of a summary run. -/
structure UserOutcome where
  alerts : List AlertConfiguration
  emails : List SentEmail
  sentInc : Nat
  processedInc : Nat
  errs : List RunError
deriving DecidableEq, Repr

/-- The per-owner body of `processDailySummaries` (and, line for line, of
`processWeeklySummaries`): `schedulerService.js` lines 409-457. Collect the
owner's matches (a throw is the per-user catch: error logged, nothing
mutated), deduplicate, skip the owner entirely when empty (but still count
`processed`, line 446), dispatch one summary (`sendFails` keyed by the
owner's user id models `sendDailySummary` throwing: error logged, no stats
touched), then run the stats loop; a stats-loop throw keeps the partial
updates and the already-dispatched email but logs the error and skips the
`emailsSent`/`processed` counters. -/
def processUserDaily (now : Int) (sendFails : Nat → Bool) (recent : List Tender)
    (uid : Nat) (cfgs : List AlertConfiguration) : UserOutcome :=
  match collectMatches now recent cfgs with
  | .error _ => ⟨cfgs, [], 0, 0, [⟨uid, "daily_summary"⟩]⟩
  | .ok matching =>
    let uniq := removeDuplicateTenders matching
    if uniq.isEmpty then ⟨cfgs, [], 0, 1, []⟩
    else if sendFails uid then ⟨cfgs, [], 0, 0, [⟨uid, "daily_summary"⟩]⟩
    else
      let p := statsLoop now uniq cfgs
      if p.2 then ⟨p.1, [⟨uid, uniq.map Tender.id⟩], 0, 0, [⟨uid, "daily_summary"⟩]⟩
      else ⟨p.1, [⟨uid, uniq.map Tender.id⟩], 1, 1, []⟩

/-- Aggregate result of a summary run: per-owner final configurations (in
group order), dispatched emails, and the source's `results` counters. -/
structure SummaryRunResult where
  groups : List (Nat × List AlertConfiguration)
  emails : List SentEmail
  processed : Nat
  emailsSent : Nat
  errors : List RunError
deriving DecidableEq, Repr

/-- The `for (const [userId, alerts] of userAlerts.entries())` loop shared
verbatim by `processDailySummaries` (lines 409-458) and
`processWeeklySummaries` (lines 512-561). -/
def runSummaryUsers (now : Int) (sendFails : Nat → Bool) (recent : List Tender) :
    List (Nat × List AlertConfiguration) → SummaryRunResult
  | [] => ⟨[], [], 0, 0, []⟩
  | (uid, cfgs) :: rest =>
    let o := processUserDaily now sendFails recent uid cfgs
    let r := runSummaryUsers now sendFails recent rest
    ⟨(uid, o.alerts) :: r.groups, o.emails ++ r.emails,
      o.processedInc + r.processed, o.sentInc + r.emailsSent, o.errs ++ r.errors⟩

/-- Helper of `groupAlertsByUser`: append an alert to its owner's group,
creating the group at the end on first sight (JS `Map` insertion order). -/
def insertByUser (m : List (Nat × List AlertConfiguration)) (uid : Nat)
    (a : AlertConfiguration) : List (Nat × List AlertConfiguration) :=
  match m with
  | [] => [(uid, [a])]
  | (k, g) :: rest =>
      if k = uid then (k, g ++ [a]) :: rest else (k, g) :: insertByUser rest uid a

/-- Models `groupAlertsByUser(alerts)` (`schedulerService.js` lines 626-638):
`alert.user._id` throws when the populate found no user. -/
def groupAlertsByUser (m : List (Nat × List AlertConfiguration)) :
    List AlertConfiguration → Except Unit (List (Nat × List AlertConfiguration))
  | [] => .ok m
  | a :: rest =>
    match a.user with
    | none => .error ()
    | some u => groupAlertsByUser (insertByUser m u.id a) rest

/-- Models `processDailySummaries(time)` (`schedulerService.js` lines 377-477) with
the store reads as parameters: the already-fetched `dailyAlerts` and the
last-24h `recentTenders`. Early returns when either list is empty touch
nothing; a throw in `groupAlertsByUser` escapes the run (outer catch
rethrows, line 475). -/
def processDailySummaries (now : Int) (sendFails : Nat → Bool)
    (dailyAlerts : List AlertConfiguration) (recentTenders : List Tender) :
    Except Unit SummaryRunResult :=
  if dailyAlerts.isEmpty then .ok ⟨[], [], 0, 0, []⟩
  else if recentTenders.isEmpty then .ok ⟨[], [], 0, 0, []⟩
  else
    match groupAlertsByUser [] dailyAlerts with
    | .error e => .error e
    | .ok groups => .ok (runSummaryUsers now sendFails recentTenders groups)

/-- Models `processWeeklySummaries()` (`schedulerService.js` lines 480-578): the
same pipeline as the daily run over the weekly cohort and the last-7-days
window. -/
def processWeeklySummaries (now : Int) (sendFails : Nat → Bool)
    (weeklyAlerts : List AlertConfiguration) (weeklyTenders : List Tender) :
    Except Unit SummaryRunResult :=
  if weeklyAlerts.isEmpty then .ok ⟨[], [], 0, 0, []⟩
  else if weeklyTenders.isEmpty then .ok ⟨[], [], 0, 0, []⟩
  else
    match groupAlertsByUser [] weeklyAlerts with
    | .error e => .error e
    | .ok groups => .ok (runSummaryUsers now sendFails weeklyTenders groups)

/-! ## The weekly eligibility query (`AlertConfiguration.js` lines 322-335) -/

/-- Milliseconds per day. -/
def msPerDay : Int := 86400000

/-- The Mongo filter of `findWeeklyAlerts` applied to one configuration:
active, email-enabled, weekly frequency, and
`lastSentAt ≤ oneWeekAgo` or `lastSentAt` missing. -/
def weeklyQueryMatch (now : Int) (c : AlertConfiguration) : Bool :=
  c.isActive && c.emailSettings.enabled
    && decide (c.emailSettings.frequency = .weekly)
    && (match c.emailSettings.lastSentAt with
        | some d => decide (d ≤ now - 7 * msPerDay)
        | none => true)

/-- Models `findWeeklyAlerts()` as a pure filter over the collection, `now` being
the clock read of line 323. -/
def findWeeklyAlerts (now : Int) (configs : List AlertConfiguration) :
    List AlertConfiguration :=
  configs.filter (weeklyQueryMatch now)

/-- Follows the claim's words (spec refinement side, not the source): a
configuration the weekly run should select — active, email-enabled, weekly
frequency, and never sent or last sent at least 7 days before the run. -/
def weeklyDueSpec (now : Int) (c : AlertConfiguration) : Prop :=
  c.isActive = true ∧ c.emailSettings.enabled = true
    ∧ c.emailSettings.frequency = .weekly
    ∧ (c.emailSettings.lastSentAt = none
        ∨ ∃ d, c.emailSettings.lastSentAt = some d ∧ 7 * msPerDay ≤ now - d)

/-! ## The notification renderers (`emailService.js`)

A rendering is abstracted to the ordered list of record/run facts its
template interpolates: each `EmailFact` constructor corresponds to one
`${...}` splice of record or run data in the source template (static HTML
furniture and CSS carry no facts). The fact lists below follow the
templates splice by splice, in source order. -/

/-- One interpolated fact of an email body. -/
inductive EmailFact
  | configName (s : String)
  | matchCount (n : Nat)
  | tenderTitle (s : JStr)
  | category (s : Option String)
  | orgName (s : Option String)
  | orgType (s : Option String)
  | district (s : Option String)
  | province (s : Option String)
  | closingDate (d : Option Int)
  | valueAmount (currency : String) (amount : Nat)
  | link (id : Nat)
  | descriptionExcerpt (s : JStr)
  | greetingName (s : String)
  | frequencyLabel (s : String)
  | totalCount (n : Nat)
  | sectionName (s : String)
  | sectionCount (n : Nat)
  | noMatchesNote
  | manageLink
  | unsubscribeLink
deriving DecidableEq, Repr

/-- The optional estimated-value fact: rendered only when
`tender.financials?.estimatedValue` is present (same condition in the HTML
and text templates). -/
def valueFacts (t : Tender) : List EmailFact :=
  match t.financials.bind Financials.estimatedValue with
  | none => []
  | some ev => [.valueAmount ev.currency ev.amount]

/-- Facts of one tender card of `generateAlertEmailHTML`
(`emailService.js` lines 209-254): title, category, organization type,
description excerpt (`substring(0, 200)`), organization name, district,
province, closing date, optional value, deep link. -/
def alertTenderFactsHTML (t : Tender) : List EmailFact :=
  [.tenderTitle (t.title.getD []), .category t.category,
   .orgType (t.organization.bind Organization.orgType),
   .descriptionExcerpt ((t.description.getD []).take 200),
   .orgName (t.organization.bind Organization.orgName),
   .district (t.location.bind TLocation.district),
   .province (t.location.bind TLocation.province),
   .closingDate (t.dates.bind TenderDates.closing)]
  ++ valueFacts t ++ [.link t.id]

/-- Facts of one tender item of `generateAlertEmailText`
(`emailService.js` lines 304-314): title, category, organization name and
type, district, province, closing date, optional value, deep link — no
description. -/
def alertTenderFactsText (t : Tender) : List EmailFact :=
  [.tenderTitle (t.title.getD []), .category t.category,
   .orgName (t.organization.bind Organization.orgName),
   .orgType (t.organization.bind Organization.orgType),
   .district (t.location.bind TLocation.district),
   .province (t.location.bind TLocation.province),
   .closingDate (t.dates.bind TenderDates.closing)]
  ++ valueFacts t ++ [.link t.id]

/-- Facts of the whole `generateAlertEmailHTML` body (lines 256-297):
config name (title tag and header), match count, the tender cards, manage
and unsubscribe links. -/
def generateAlertEmailHTMLFacts (ts : List Tender) (cfg : AlertConfiguration) :
    List EmailFact :=
  [.configName cfg.name, .matchCount ts.length]
    ++ ts.flatMap alertTenderFactsHTML ++ [.manageLink, .unsubscribeLink]

/-- Facts of the whole `generateAlertEmailText` body (lines 299-320). -/
def generateAlertEmailTextFacts (ts : List Tender) (cfg : AlertConfiguration) :
    List EmailFact :=
  [.configName cfg.name, .matchCount ts.length]
    ++ ts.flatMap alertTenderFactsText ++ [.manageLink, .unsubscribeLink]

/-- One entry of the `groupedTenders` object built by
`groupTendersByAlert` (`emailService.js` lines 195-206). -/
structure GroupedEntry where
  configName : String
  tenders : List Tender
deriving DecidableEq, Repr

/-- Models `groupTendersByAlert(tenders, alertConfigs)` (`emailService.js`
lines 195-206), which builds the summary body's sections: one entry per
configuration, in configuration order, holding the tenders among the given
(already deduplicated) list that the configuration matches — a record
matched by several configurations is placed in each of their sections. A
predicate throw escapes to the caller. -/
def groupTendersByAlert (now : Int) (tenders : List Tender) :
    List AlertConfiguration → Except Unit (List GroupedEntry)
  | [] => .ok []
  | c :: rest =>
    match jsFilterE (fun t => shouldTriggerForTender c t now) tenders with
    | .error e => .error e
    | .ok ms =>
      match groupTendersByAlert now tenders rest with
      | .error e => .error e
      | .ok gs => .ok (⟨c.name, ms⟩ :: gs)

/-- Models `user.firstName || user.name || 'there'` with JS string truthiness
(the empty string is falsy). -/
def jsStrOr (a : Option String) (b : String) : String :=
  match a with
  | none => b
  | some s => if s = "" then b else s

/-- The greeting name of a summary body (lines 397 and 422). -/
def greetingOf (u : User) : String := jsStrOr u.firstName (jsStrOr u.name "there")

/-- Facts of one tender row of a summary section, HTML (lines 328-345):
title, organization name, district, province, closing date, link. -/
def summaryTenderFactsHTML (t : Tender) : List EmailFact :=
  [.tenderTitle (t.title.getD []),
   .orgName (t.organization.bind Organization.orgName),
   .district (t.location.bind TLocation.district),
   .province (t.location.bind TLocation.province),
   .closingDate (t.dates.bind TenderDates.closing), .link t.id]

/-- Facts of one tender row of a summary section, text (lines 432-438):
the same six facts. -/
def summaryTenderFactsText (t : Tender) : List EmailFact :=
  [.tenderTitle (t.title.getD []),
   .orgName (t.organization.bind Organization.orgName),
   .district (t.location.bind TLocation.district),
   .province (t.location.bind TLocation.province),
   .closingDate (t.dates.bind TenderDates.closing), .link t.id]

/-- Facts of one configuration section, HTML (lines 324-357): empty
sections are omitted (`if (data.tenders.length === 0) return ''`). -/
def summarySectionFactsHTML (g : GroupedEntry) : List EmailFact :=
  if g.tenders.isEmpty then []
  else [.sectionName g.configName, .sectionCount g.tenders.length]
        ++ g.tenders.flatMap summaryTenderFactsHTML

/-- Facts of one configuration section, text (lines 425-439): empty
sections are likewise skipped. -/
def summarySectionFactsText (g : GroupedEntry) : List EmailFact :=
  if g.tenders.isEmpty then []
  else [.sectionName g.configName, .sectionCount g.tenders.length]
        ++ g.tenders.flatMap summaryTenderFactsText

/-- Total tender count of a grouped summary (the `totalTenders`
accumulator of lines 323-326 and 424-427). -/
def totalTendersOf (gs : List GroupedEntry) : Nat :=
  (gs.map fun g => g.tenders.length).sum

/-- Facts of the whole `generateSummaryEmailHTML` body (lines 322-417):
the zero-total variant renders only the frequency label and the
no-matches note (lines 359-375); otherwise frequency label (title and
header), total count, greeting, the sections, manage and unsubscribe
links. -/
def generateSummaryEmailHTMLFacts (gs : List GroupedEntry) (frequency : String)
    (u : User) : List EmailFact :=
  if totalTendersOf gs = 0 then [.frequencyLabel frequency, .noMatchesNote]
  else
    [.frequencyLabel frequency, .totalCount (totalTendersOf gs), .greetingName (greetingOf u)]
      ++ gs.flatMap summarySectionFactsHTML ++ [.manageLink, .unsubscribeLink]

/-- Facts of the whole `generateSummaryEmailText` body (lines 419-449):
frequency label, greeting, the sections, the no-matches note when the
total is zero, manage and unsubscribe links. -/
def generateSummaryEmailTextFacts (gs : List GroupedEntry) (frequency : String)
    (u : User) : List EmailFact :=
  [.frequencyLabel frequency, .greetingName (greetingOf u)]
    ++ gs.flatMap summarySectionFactsText
    ++ (if totalTendersOf gs = 0 then [.noMatchesNote] else [])
    ++ [.manageLink, .unsubscribeLink]

/-! ## The scheduler's named jobs (`schedulerService.js` lines 41-124)

Each registered cron job (for example `daily-09:00`, lines 41-58) runs a
callback that immediately begins the corresponding summary processing:
the callback contains no in-flight check, no queueing and no skipping, so
each timer tick starts a new execution of the named job regardless of
whether a previous one has completed. (The `processingQueue`/`isProcessing`
pair of lines 581-610 serializes only `queueTenderForProcessing`, the
per-tender immediate path; no named cron job goes through it.) The event
loop is modelled as a transition system over the number of in-flight
executions per named job. -/

/-- Event-loop state: in-flight (started, not yet completed) executions of
each named scheduled job. -/
structure SchedulerState where
  inflight : String → Nat

/-- A cron tick of job `j` invokes its registered callback, which starts a
new execution at once (no guard exists in the callback, lines 43-57). -/
def fireJob (s : SchedulerState) (j : String) : SchedulerState :=
  ⟨fun k => if k = j then s.inflight k + 1 else s.inflight k⟩

/-- An in-flight execution of job `j` finishes (its awaited promise
resolves). -/
def completeJob (s : SchedulerState) (j : String) : SchedulerState :=
  ⟨fun k => if k = j then s.inflight k - 1 else s.inflight k⟩

/-- One event-loop step: a timer fires for some named job, or an in-flight
run of some named job completes. -/
inductive SchedStep : SchedulerState → SchedulerState → Prop
  | fire (j : String) (s : SchedulerState) : SchedStep s (fireJob s j)
  | complete (j : String) (s : SchedulerState) (h : 0 < s.inflight j) :
      SchedStep s (completeJob s j)

/-- The idle state at process start: nothing in flight. -/
def initSchedulerState : SchedulerState := ⟨fun _ => 0⟩

/-- Reachability of the scheduler's event loop. -/
def SchedReachable : SchedulerState → SchedulerState → Prop :=
  Relation.ReflTransGen SchedStep

/-! ## Concrete fixtures used by witnesses and counterexamples -/

/-- Empty location filter sets. -/
def emptyLocations : Locations := ⟨[], [], []⟩

/-- Empty advanced filters. -/
def emptyAdvanced : AdvancedFilters := ⟨[], none, none, [], []⟩

/-- Fresh stats. -/
def zeroStats : Stats := ⟨0, 0, none, none⟩

/-- Enabled immediate-frequency email settings, never sent. -/
def immediateSettings : EmailSettings := ⟨true, .immediate, none, none, "09:00"⟩

/-- Enabled daily-frequency email settings, never sent. -/
def dailySettings : EmailSettings := ⟨true, .daily, none, none, "09:00"⟩

/-- An unset value range. -/
def baseValueRange : EstimatedValueRange := ⟨none, none, "LKR"⟩

/-- An active configuration with no filters at all (matches any record the
evaluator can process without throwing). -/
def baseConfig : AlertConfiguration :=
  ⟨0, none, "base", true, [], [], emptyLocations, [], baseValueRange,
    immediateSettings, zeroStats, emptyAdvanced⟩

/-- A record with every optional field absent. -/
def emptyTender : Tender :=
  ⟨0, none, none, none, none, none, none, none, none, none, none⟩

/-- The word "IT". -/
def itChars : JStr := ['I', 'T']

/-- A configuration whose only clause is the exact-mode keyword "IT". -/
def cfgITexact : AlertConfiguration := { baseConfig with keywords := [⟨itChars, .exact⟩] }

/-- A record with the given title and nothing else. -/
def tenderTitled (s : JStr) : Tender := { emptyTender with title := some s }

/-- A configuration whose only constraint is the value range 1000-5000. -/
def cfgVal : AlertConfiguration :=
  { baseConfig with estimatedValue := ⟨some 1000, some 5000, "LKR"⟩ }

/-- A configuration bounded below by 1000 only. -/
def cfgValMin : AlertConfiguration :=
  { baseConfig with estimatedValue := ⟨some 1000, none, "LKR"⟩ }

/-- A configuration bounded above by 5000 only. -/
def cfgValMax : AlertConfiguration :=
  { baseConfig with estimatedValue := ⟨none, some 5000, "LKR"⟩ }

/-- A record whose only populated field is an estimated amount. -/
def tenderAmount (a : Nat) : Tender :=
  { emptyTender with financials := some ⟨some ⟨a, "LKR"⟩⟩ }

/-- A configuration with one contains-mode keyword clause. -/
def cfgKw : AlertConfiguration := { baseConfig with keywords := [⟨['x'], .contains⟩] }

/-- An owner with the email-alerts entitlement. -/
def userA : User := ⟨1, "a@example.com", none, none, some ⟨⟨true⟩⟩⟩

/-- A second entitled owner. -/
def userB : User := ⟨2, "b@example.com", none, none, some ⟨⟨true⟩⟩⟩

/-- An immediate, filterless alert owned by `userA`. -/
def alertA : AlertConfiguration := { baseConfig with id := 1, user := some userA }

/-- An immediate, filterless alert owned by `userB`. -/
def alertB : AlertConfiguration := { baseConfig with id := 2, user := some userB }

/-- A minimal record with id 7. -/
def tenderT : Tender := { emptyTender with id := 7 }

/-- A transport that fails exactly for key 1. -/
def sendFailsA : Nat → Bool := fun i => i == 1

/-- A transport that never fails. -/
def sendOk : Nat → Bool := fun _ => false

/-- A record with all the fields the evaluator dereferences present. -/
def tenderFull : Tender :=
  { emptyTender with
      title := some ['h', 'i']
      location := some ⟨some "Western", some "Colombo", none⟩
      organization := some ⟨some "Org", some "government"⟩
      dates := some ⟨none, none⟩ }

/-- A fixed run instant for the weekly-eligibility instances. -/
def nowW : Int := 1700000000000

/-- Enabled weekly-frequency settings with the given `lastSentAt`. -/
def weeklySettings (last : Option Int) : EmailSettings :=
  ⟨true, .weekly, none, last, "09:00"⟩

/-- A weekly configuration last sent 3 days before `nowW`. -/
def cfg3days : AlertConfiguration :=
  { baseConfig with id := 31, emailSettings := weeklySettings (some (nowW - 3 * msPerDay)) }

/-- A weekly configuration last sent 8 days before `nowW`. -/
def cfg8days : AlertConfiguration :=
  { baseConfig with id := 32, emailSettings := weeklySettings (some (nowW - 8 * msPerDay)) }

/-- A weekly configuration never sent. -/
def cfgNeverSent : AlertConfiguration :=
  { baseConfig with id := 33, emailSettings := weeklySettings none }

/-- A daily, filterless alert owned by `userA`. -/
def alertDaily1 : AlertConfiguration :=
  { baseConfig with id := 11, user := some userA, emailSettings := dailySettings }

/-- First daily configuration of the shared-match witness. -/
def cfgD1 : AlertConfiguration :=
  { baseConfig with id := 21, user := some userA, emailSettings := dailySettings }

/-- Second daily configuration of the shared-match witness. -/
def cfgD2 : AlertConfiguration :=
  { baseConfig with id := 22, user := some userA, emailSettings := dailySettings }

/-- A configuration whose keyword "zz" matches nothing below. -/
def cfgNoMatch : AlertConfiguration :=
  { baseConfig with
      id := 41
      keywords := [⟨['z', 'z'], .contains⟩]
      emailSettings := dailySettings }

/-- A record titled "hello" with id 5. -/
def tenderHello : Tender :=
  { emptyTender with id := 5, title := some ['h', 'e', 'l', 'l', 'o'] }

/-- A record with a description and nothing else. -/
def tenderDesc : Tender :=
  { emptyTender with id := 9, description := some ['s', 'e', 'c', 'r', 'e', 't'] }

/-! ## Helper lemmas -/

theorem andThenCheck_ok {c rest : Except Unit Bool} (h1 : ∃ b, c = .ok b)
    (h2 : ∃ b, rest = .ok b) : ∃ b, andThenCheck c rest = .ok b := by
  obtain ⟨b1, hb1⟩ := h1
  obtain ⟨b2, hb2⟩ := h2
  cases b1 <;> simp [andThenCheck, hb1, hb2]

theorem textToSearch_ok {t : Tender} (h : t.title ≠ none) :
    ∃ s, textToSearch t = .ok s := by
  cases ht : t.title with
  | none => exact absurd ht h
  | some ti => simp [textToSearch, ht]

theorem checkKeywords_ok {cfg : AlertConfiguration} {t : Tender}
    (h : t.title ≠ none) : ∃ b, checkKeywords cfg t = .ok b := by
  unfold checkKeywords
  by_cases hk : cfg.keywords.isEmpty
  · exact ⟨true, by simp [hk]⟩
  · obtain ⟨s, hs⟩ := textToSearch_ok h
    simp [hk, hs]

theorem checkExcludeKeywords_ok {cfg : AlertConfiguration} {t : Tender}
    (h : t.title ≠ none) : ∃ b, checkExcludeKeywords cfg t = .ok b := by
  unfold checkExcludeKeywords
  by_cases hk : cfg.advancedFilters.excludeKeywords.isEmpty
  · exact ⟨true, by simp [hk]⟩
  · obtain ⟨s, hs⟩ := textToSearch_ok h
    rw [if_neg hk, hs]
    exact ⟨_, rfl⟩

theorem checkCategories_ok (cfg : AlertConfiguration) (t : Tender) :
    ∃ b, checkCategories cfg t = .ok b := by
  unfold checkCategories
  by_cases hk : cfg.categories.isEmpty <;> simp [hk]

theorem checkProvinces_ok {cfg : AlertConfiguration} {t : Tender}
    (h : t.location ≠ none) : ∃ b, checkProvinces cfg t = .ok b := by
  unfold checkProvinces
  by_cases hk : cfg.locations.provinces.isEmpty
  · exact ⟨true, by simp [hk]⟩
  · cases hl : t.location with
    | none => exact absurd hl h
    | some loc => simp [hk, hl]

theorem checkDistricts_ok {cfg : AlertConfiguration} {t : Tender}
    (h : t.location ≠ none) : ∃ b, checkDistricts cfg t = .ok b := by
  unfold checkDistricts
  by_cases hk : cfg.locations.districts.isEmpty
  · exact ⟨true, by simp [hk]⟩
  · cases hl : t.location with
    | none => exact absurd hl h
    | some loc => simp [hk, hl]

theorem checkCities_ok {cfg : AlertConfiguration} {t : Tender}
    (h : t.location ≠ none) : ∃ b, checkCities cfg t = .ok b := by
  unfold checkCities
  by_cases hk : cfg.locations.cities.isEmpty
  · exact ⟨true, by simp [hk]⟩
  · cases hl : t.location with
    | none => exact absurd hl h
    | some loc =>
        cases hc : loc.city with
        | none => exact ⟨true, by simp [hk, hl, hc]⟩
        | some c =>
            by_cases hce : c = ""
            · exact ⟨true, by simp [hk, hl, hc, hce]⟩
            · simp [hk, hl, hc, hce]

theorem checkOrgTypes_ok {cfg : AlertConfiguration} {t : Tender}
    (h : t.organization ≠ none) : ∃ b, checkOrgTypes cfg t = .ok b := by
  unfold checkOrgTypes
  by_cases hk : cfg.organizationTypes.isEmpty
  · exact ⟨true, by simp [hk]⟩
  · cases ho : t.organization with
    | none => exact absurd ho h
    | some org => simp [hk, ho]

theorem checkValue_ok (cfg : AlertConfiguration) (t : Tender) :
    ∃ b, checkValue cfg t = .ok b := by
  unfold checkValue
  by_cases hb : (natTruthy cfg.estimatedValue.min || natTruthy cfg.estimatedValue.max) = true
  · cases hv : t.financials.bind Financials.estimatedValue with
    | none => exact ⟨true, by simp [hb, hv]⟩
    | some ev =>
        simp only [hb, hv, if_true]
        by_cases h0 : ev.amount = 0
        · exact ⟨true, by simp [h0]⟩
        · by_cases h1 : (natTruthy cfg.estimatedValue.min
              && decide (ev.amount < cfg.estimatedValue.min.getD 0)) = true
          · exact ⟨false, by simp [h0, h1]⟩
          · by_cases h2 : (natTruthy cfg.estimatedValue.max
                && decide (cfg.estimatedValue.max.getD 0 < ev.amount)) = true
            · exact ⟨false, by simp [h0, h1, h2]⟩
            · exact ⟨true, by simp [h0, h1, h2]⟩
  · exact ⟨true, by simp [hb]⟩

theorem checkDaysUntilClosing_ok {cfg : AlertConfiguration} {t : Tender} {now : Int}
    (h : t.dates ≠ none) : ∃ b, checkDaysUntilClosing cfg t now = .ok b := by
  unfold checkDaysUntilClosing
  by_cases hb : (natTruthy cfg.advancedFilters.minDaysUntilClosing
      || natTruthy cfg.advancedFilters.maxDaysUntilClosing) = true
  · cases hd : t.dates with
    | none => exact absurd hd h
    | some d =>
        cases hc : d.closing with
        | none => exact ⟨true, by simp [hb, hd, hc]⟩
        | some closing =>
            simp only [hb, hd, hc, if_true]
            by_cases h1 : (natTruthy cfg.advancedFilters.minDaysUntilClosing
                && decide (jsCeilDiv (closing - now) 86400000
                    < (cfg.advancedFilters.minDaysUntilClosing.getD 0 : Int))) = true
            · exact ⟨false, by simp [h1]⟩
            · by_cases h2 : (natTruthy cfg.advancedFilters.maxDaysUntilClosing
                  && decide (((cfg.advancedFilters.maxDaysUntilClosing.getD 0 : Int))
                      < jsCeilDiv (closing - now) 86400000)) = true
              · exact ⟨false, by simp [h1, h2]⟩
              · exact ⟨true, by simp [h1, h2]⟩
  · exact ⟨true, by simp [hb]⟩

theorem checkStatuses_ok (cfg : AlertConfiguration) (t : Tender) :
    ∃ b, checkStatuses cfg t = .ok b := by
  unfold checkStatuses
  by_cases hk : cfg.advancedFilters.includedStatuses.isEmpty <;> simp [hk]

theorem checkPriorities_ok (cfg : AlertConfiguration) (t : Tender) :
    ∃ b, checkPriorities cfg t = .ok b := by
  unfold checkPriorities
  by_cases hk : cfg.advancedFilters.includedPriorities.isEmpty <;> simp [hk]

theorem shouldTriggerForTender_total {cfg : AlertConfiguration} {t : Tender}
    (now : Int) (h1 : t.title ≠ none) (h2 : t.location ≠ none)
    (h3 : t.organization ≠ none) (h4 : t.dates ≠ none) :
    ∃ b, shouldTriggerForTender cfg t now = .ok b := by
  unfold shouldTriggerForTender
  exact andThenCheck_ok ⟨_, rfl⟩ <|
    andThenCheck_ok (checkKeywords_ok h1) <|
    andThenCheck_ok (checkExcludeKeywords_ok h1) <|
    andThenCheck_ok (checkCategories_ok cfg t) <|
    andThenCheck_ok (checkProvinces_ok h2) <|
    andThenCheck_ok (checkDistricts_ok h2) <|
    andThenCheck_ok (checkCities_ok h2) <|
    andThenCheck_ok (checkOrgTypes_ok h3) <|
    andThenCheck_ok (checkValue_ok cfg t) <|
    andThenCheck_ok (checkDaysUntilClosing_ok h4) <|
    andThenCheck_ok (checkStatuses_ok cfg t) <|
    andThenCheck_ok (checkPriorities_ok cfg t) ⟨true, rfl⟩

theorem jsFilterE_eq_filter {p : α → Except Unit Bool} {l : List α}
    (h : ∀ x ∈ l, isOkE (p x) = true) :
    jsFilterE p l = .ok (l.filter fun x => okTrue (p x)) := by
  induction l with
  | nil => rfl
  | cons x xs ih =>
      have hx := h x (List.mem_cons_self x xs)
      have hxs := ih fun y hy => h y (List.mem_cons_of_mem x hy)
      cases hpx : p x with
      | error e => rw [hpx] at hx; simp [isOkE] at hx
      | ok b =>
          cases b <;>
            simp [jsFilterE, hpx, hxs, List.filter_cons, okTrue]

theorem jsFilterE_ok_total {p : α → Except Unit Bool} {l : List α} {res : List α}
    (h : jsFilterE p l = .ok res) : ∀ x ∈ l, isOkE (p x) = true := by
  induction l generalizing res with
  | nil => intro x hx; cases hx
  | cons y ys ih =>
      intro x hx
      rw [jsFilterE] at h
      cases hpy : p y with
      | error e => rw [hpy] at h; cases h
      | ok b =>
          rw [hpy] at h
          cases hys : jsFilterE p ys with
          | error e => rw [hys] at h; cases h
          | ok zs =>
              rcases List.mem_cons.mp hx with rfl | hx'
              · rw [hpy]; rfl
              · exact ih hys x hx'

theorem collectMatches_eq_flatMap {now : Int} {recent : List Tender}
    {cfgs : List AlertConfiguration}
    (h : ∀ a ∈ cfgs, ∀ t ∈ recent, isOkE (shouldTriggerForTender a t now) = true) :
    collectMatches now recent cfgs
      = .ok (cfgs.flatMap fun a =>
          recent.filter fun t => okTrue (shouldTriggerForTender a t now)) := by
  induction cfgs with
  | nil => rfl
  | cons a rest ih =>
      have ha := jsFilterE_eq_filter (h a (List.mem_cons_self a rest))
      have hr := ih fun b hb => h b (List.mem_cons_of_mem a hb)
      simp [collectMatches, ha, hr]

theorem collectMatches_ok_total {now : Int} {recent : List Tender}
    {cfgs : List AlertConfiguration} {m : List Tender}
    (h : collectMatches now recent cfgs = .ok m) :
    ∀ a ∈ cfgs, ∀ t ∈ recent, isOkE (shouldTriggerForTender a t now) = true := by
  induction cfgs generalizing m with
  | nil => intro a ha; cases ha
  | cons b rest ih =>
      intro a ha t ht
      rw [collectMatches] at h
      cases hb : jsFilterE (fun t => shouldTriggerForTender b t now) recent with
      | error e => rw [hb] at h; cases h
      | ok ms =>
          rw [hb] at h
          cases hrest : collectMatches now recent rest with
          | error e => rw [hrest] at h; cases h
          | ok rs =>
              rcases List.mem_cons.mp ha with rfl | ha'
              · exact jsFilterE_ok_total hb t ht
              · exact ih hrest a ha' t ht

theorem collectMatches_eq_of_ok {now : Int} {recent : List Tender}
    {cfgs : List AlertConfiguration} {m : List Tender}
    (h : collectMatches now recent cfgs = .ok m) :
    m = cfgs.flatMap fun a =>
        recent.filter fun t => okTrue (shouldTriggerForTender a t now) := by
  have := collectMatches_eq_flatMap (collectMatches_ok_total h)
  rw [h] at this
  exact Except.ok.inj this

theorem removeDupAux_id_mem (seen : List Nat) (ts : List Tender) (i : Nat) :
    i ∈ (removeDupAux seen ts).map Tender.id ↔ i ∉ seen ∧ i ∈ ts.map Tender.id := by
  induction ts generalizing seen with
  | nil => simp [removeDupAux]
  | cons t rest ih =>
      by_cases hs : t.id ∈ seen
      · rw [removeDupAux, if_pos hs, ih]
        simp only [List.map_cons, List.mem_cons]
        by_cases hit : i = t.id
        · subst hit; tauto
        · tauto
      · rw [removeDupAux, if_neg hs]
        simp only [List.map_cons, List.mem_cons, ih, not_or]
        by_cases hit : i = t.id
        · subst hit; tauto
        · tauto

theorem removeDupAux_nodup (seen : List Nat) (ts : List Tender) :
    ((removeDupAux seen ts).map Tender.id).Nodup := by
  induction ts generalizing seen with
  | nil => simp [removeDupAux]
  | cons t rest ih =>
      by_cases hs : t.id ∈ seen
      · rw [removeDupAux, if_pos hs]; exact ih seen
      · rw [removeDupAux, if_neg hs]
        simp only [List.map_cons, List.nodup_cons]
        refine ⟨fun hmem => ?_, ih (t.id :: seen)⟩
        exact ((removeDupAux_id_mem _ _ _).mp hmem).1 (List.mem_cons_self _ _)

theorem removeDupAux_sub (seen : List Nat) (ts : List Tender) :
    ∀ t ∈ removeDupAux seen ts, t ∈ ts := by
  induction ts generalizing seen with
  | nil => intro t ht; cases ht
  | cons x rest ih =>
      intro t ht
      by_cases hs : x.id ∈ seen
      · rw [removeDupAux, if_pos hs] at ht
        exact List.mem_cons_of_mem x (ih seen t ht)
      · rw [removeDupAux, if_neg hs] at ht
        rcases List.mem_cons.mp ht with rfl | ht'
        · exact List.mem_cons_self t rest
        · exact List.mem_cons_of_mem x (ih (x.id :: seen) t ht')

theorem removeDuplicateTenders_id_mem (ts : List Tender) (i : Nat) :
    i ∈ (removeDuplicateTenders ts).map Tender.id ↔ i ∈ ts.map Tender.id := by
  rw [removeDuplicateTenders, removeDupAux_id_mem]
  simp

theorem removeDuplicateTenders_nodup (ts : List Tender) :
    ((removeDuplicateTenders ts).map Tender.id).Nodup :=
  removeDupAux_nodup [] ts

theorem removeDuplicateTenders_sub (ts : List Tender) :
    ∀ t ∈ removeDuplicateTenders ts, t ∈ ts :=
  removeDupAux_sub [] ts

theorem statsLoop_eq_map {now : Int} {uniq : List Tender}
    {cfgs : List AlertConfiguration}
    (h : ∀ a ∈ cfgs, ∀ t ∈ uniq, isOkE (shouldTriggerForTender a t now) = true) :
    statsLoop now uniq cfgs = (cfgs.map (dailyStatsUpdate now uniq), false) := by
  induction cfgs with
  | nil => rfl
  | cons a rest ih =>
      have ha := jsFilterE_eq_filter (h a (List.mem_cons_self a rest))
      have hr := ih fun b hb => h b (List.mem_cons_of_mem a hb)
      simp [statsLoop, ha, hr, dailyStatsUpdate]

theorem groupTendersByAlert_eq_map {now : Int} {tenders : List Tender}
    {cfgs : List AlertConfiguration}
    (h : ∀ a ∈ cfgs, ∀ t ∈ tenders, isOkE (shouldTriggerForTender a t now) = true) :
    groupTendersByAlert now tenders cfgs
      = .ok (cfgs.map fun c =>
          ⟨c.name, tenders.filter fun t => okTrue (shouldTriggerForTender c t now)⟩) := by
  induction cfgs with
  | nil => rfl
  | cons a rest ih =>
      have ha := jsFilterE_eq_filter (h a (List.mem_cons_self a rest))
      have hr := ih fun b hb => h b (List.mem_cons_of_mem a hb)
      simp [groupTendersByAlert, ha, hr]

theorem okTrue_eq_true {e : Except Unit Bool} (h : okTrue e = true) : e = .ok true := by
  cases e with
  | error a => simp [okTrue] at h
  | ok b =>
      cases b with
      | false => simp [okTrue] at h
      | true => rfl

theorem foldl_updateStats_totalMatches (now : Int) (ms : List Tender)
    (a : AlertConfiguration) :
    (ms.foldl (fun acc t => updateStats acc t now) a).stats.totalMatches
      = a.stats.totalMatches + ms.length := by
  induction ms generalizing a with
  | nil => rfl
  | cons t rest ih =>
      rw [List.foldl_cons, ih]
      simp only [updateStats, List.length_cons]
      omega

theorem foldl_updateStats_emailsSent (now : Int) (ms : List Tender)
    (a : AlertConfiguration) :
    (ms.foldl (fun acc t => updateStats acc t now) a).stats.emailsSent
      = a.stats.emailsSent := by
  induction ms generalizing a with
  | nil => rfl
  | cons t rest ih =>
      rw [List.foldl_cons, ih]
      simp only [updateStats]

theorem dailyStatsUpdate_totalMatches (now : Int) (uniq : List Tender)
    (a : AlertConfiguration) :
    (dailyStatsUpdate now uniq a).stats.totalMatches
      = a.stats.totalMatches
        + (uniq.filter fun t => okTrue (shouldTriggerForTender a t now)).length := by
  unfold dailyStatsUpdate
  by_cases he : (uniq.filter fun t => okTrue (shouldTriggerForTender a t now)).isEmpty
  · rw [if_pos he]
    rw [List.isEmpty_iff] at he
    simp [he]
  · rw [if_neg he]
    simp [incrementEmailSent, foldl_updateStats_totalMatches]

theorem andThenCheck_ok_true (c : Except Unit Bool) : andThenCheck c (.ok true) = c := by
  cases c with
  | error e => rfl
  | ok b => cases b <;> rfl

theorem matchKeyword_exact_of_includes {text term : JStr}
    (h : jsIncludes text ([' '] ++ jsToLower term ++ [' ']) = true) :
    matchKeyword text ⟨term, .exact⟩ = true := by
  unfold matchKeyword
  simp at h ⊢
  tauto

/-! ## Claim theorems -/

/-- C3 counterexample: the claim that `shouldTriggerForTender` never throws
regardless of which optional record fields are absent is false — a
configuration with one keyword clause evaluated against a record with no
`title` throws (`tender.title.toLowerCase()` on `undefined`,
`AlertConfiguration.js` line 181). -/
theorem c3_counterexample :
    shouldTriggerForTender cfgKw emptyTender 0 = .error () := by rfl

/-- C3 (amended): the predicate evaluator is a pure function and returns a
boolean without throwing for every configuration and every record whose
`title`, `location`, `organization` and `dates` fields are present; the
optional description, extended text, city, estimated amount, status and
priority may be absent without causing a throw. -/
theorem c3_never_throws_with_required_fields
    (cfg : AlertConfiguration) (t : Tender) (now : Int)
    (h1 : t.title ≠ none) (h2 : t.location ≠ none)
    (h3 : t.organization ≠ none) (h4 : t.dates ≠ none) :
    ∃ b, shouldTriggerForTender cfg t now = .ok b :=
  shouldTriggerForTender_total now h1 h2 h3 h4

/-- Witness for C3: a concrete record with the required fields present
evaluates to a boolean. -/
theorem c3_witness :
    tenderFull.title ≠ none ∧ tenderFull.location ≠ none
    ∧ tenderFull.organization ≠ none ∧ tenderFull.dates ≠ none
    ∧ ∃ b, shouldTriggerForTender baseConfig tenderFull 0 = .ok b :=
  ⟨by decide, by decide, by decide, by decide,
    c3_never_throws_with_required_fields baseConfig tenderFull 0
      (by decide) (by decide) (by decide) (by decide)⟩

/-- C5 counterexample: the claim that a record with an estimated amount
matches only when the amount lies within the configured bounds is false —
with bounds `{min:1000, max:5000}` a record whose amount is `0` has an
estimated amount outside the bounds yet matches, because the JS truthiness
test `if (tenderValue)` (`AlertConfiguration.js` line 245) treats the
amount 0 as absent and skips the bounds check. -/
theorem c5_counterexample :
    shouldTriggerForTender cfgVal (tenderAmount 0) 0 = .ok true
    ∧ (tenderAmount 0).financials.bind Financials.estimatedValue
        = some ⟨0, "LKR"⟩
    ∧ ¬ (1000 ≤ 0) :=
  ⟨by rfl, by rfl, by decide⟩

/-- C5 (amended): with value bounds configured, a record with a nonzero
estimated amount matches exactly when the amount lies within the bounds
(each bound independently optional), and a record with no estimated
amount — or with amount 0, which the source's truthiness test treats as
absent — is never failed by the value-range check alone. In particular
with `{min:1000, max:5000}` amount 4000 passes and amount 6000 fails. -/
theorem c5_value_range_amended (a : Nat) (h : a ≠ 0) :
    shouldTriggerForTender cfgVal (tenderAmount a) 0
        = .ok (decide (1000 ≤ a) && decide (a ≤ 5000))
    ∧ shouldTriggerForTender cfgValMin (tenderAmount a) 0 = .ok (decide (1000 ≤ a))
    ∧ shouldTriggerForTender cfgValMax (tenderAmount a) 0 = .ok (decide (a ≤ 5000))
    ∧ shouldTriggerForTender cfgVal (tenderAmount 4000) 0 = .ok true
    ∧ shouldTriggerForTender cfgVal (tenderAmount 6000) 0 = .ok false
    ∧ shouldTriggerForTender cfgVal emptyTender 0 = .ok true := by
  refine ⟨?_, ?_, ?_, by rfl, by rfl, by rfl⟩
  · rw [show shouldTriggerForTender cfgVal (tenderAmount a) 0
        = andThenCheck (checkValue cfgVal (tenderAmount a)) (.ok true) from rfl,
      andThenCheck_ok_true]
    unfold checkValue
    rcases Nat.lt_or_ge a 1000 with h1 | h1
    · have h1' : ¬ (1000 ≤ a) := by omega
      simp [cfgVal, baseConfig, baseValueRange, natTruthy, tenderAmount, emptyTender, h, h1, h1']
    · rcases Nat.lt_or_ge 5000 a with h2 | h2
      · have h2' : ¬ (a ≤ 5000) := by omega
        have h1' : ¬ (a < 1000) := by omega
        simp [cfgVal, baseConfig, baseValueRange, natTruthy, tenderAmount, emptyTender, h, h1, h1', h2, h2']
      · have h1' : ¬ (a < 1000) := by omega
        have h2' : ¬ (5000 < a) := by omega
        simp [cfgVal, baseConfig, baseValueRange, natTruthy, tenderAmount, emptyTender, h, h1, h1', h2, h2']
  · rw [show shouldTriggerForTender cfgValMin (tenderAmount a) 0
        = andThenCheck (checkValue cfgValMin (tenderAmount a)) (.ok true) from rfl,
      andThenCheck_ok_true]
    unfold checkValue
    rcases Nat.lt_or_ge a 1000 with h1 | h1
    · have h1' : ¬ (1000 ≤ a) := by omega
      simp [cfgValMin, baseConfig, baseValueRange, natTruthy, tenderAmount, emptyTender, h, h1, h1']
    · have h1' : ¬ (a < 1000) := by omega
      simp [cfgValMin, baseConfig, baseValueRange, natTruthy, tenderAmount, emptyTender, h, h1, h1']
  · rw [show shouldTriggerForTender cfgValMax (tenderAmount a) 0
        = andThenCheck (checkValue cfgValMax (tenderAmount a)) (.ok true) from rfl,
      andThenCheck_ok_true]
    unfold checkValue
    rcases Nat.lt_or_ge 5000 a with h2 | h2
    · have h2' : ¬ (a ≤ 5000) := by omega
      simp [cfgValMax, baseConfig, baseValueRange, natTruthy, tenderAmount, emptyTender, h, h2, h2']
    · have h2' : ¬ (5000 < a) := by omega
      simp [cfgValMax, baseConfig, baseValueRange, natTruthy, tenderAmount, emptyTender, h, h2, h2']

/-- Witness for C5 (amended): amount 4000 with bounds 1000-5000. -/
theorem c5_witness :
    (4000 : Nat) ≠ 0
    ∧ shouldTriggerForTender cfgVal (tenderAmount 4000) 0
        = .ok (decide (1000 ≤ 4000) && decide ((4000 : Nat) ≤ 5000)) :=
  ⟨by decide, (c5_value_range_amended 4000 (by decide)).1⟩

/-- C8 (evidence of the code bug): in the event-loop model of the cron
registrations (`schedulerService.js` lines 41-58), whose callbacks start a
summary run on every tick with no in-flight guard, a state with two
concurrent executions of the named job `daily-09:00` is reachable from
idle — the claimed serialization (at most one in-flight execution per
named job) does not hold; the `isProcessing` queue of lines 581-610 guards
only the immediate-tender path, which no named job uses. -/
theorem c8_two_executions_reachable :
    ∃ s : SchedulerState, SchedReachable initSchedulerState s
      ∧ s.inflight "daily-09:00" = 2 := by
  refine ⟨fireJob (fireJob initSchedulerState "daily-09:00") "daily-09:00", ?_, ?_⟩
  · exact Relation.ReflTransGen.tail
      (Relation.ReflTransGen.single (SchedStep.fire "daily-09:00" initSchedulerState))
      (SchedStep.fire "daily-09:00" (fireJob initSchedulerState "daily-09:00"))
  · simp [fireJob, initSchedulerState]

/-- C10: in an immediate run, a configuration whose populated user is
absent, or whose user lacks the `subscription.features.emailAlerts`
entitlement, is skipped before predicate evaluation
(`schedulerService.js` lines 294-300): the run's outcome equals the
outcome over the remaining configurations with the skipped configuration
passed through untouched — its stats unchanged, no email, `processed` not
incremented, no error, and no predicate invocation recorded for it. -/
theorem c10_entitlement_skip (now : Int) (sf : Nat → Bool) (t : Tender)
    (a : AlertConfiguration) (rest : List AlertConfiguration)
    (h : a.user = none ∨ ∃ u, a.user = some u ∧ userEntitled u = false) :
    (processTenderAlerts now sf t (a :: rest)).alerts
        = a :: (processTenderAlerts now sf t rest).alerts
    ∧ (processTenderAlerts now sf t (a :: rest)).processed
        = (processTenderAlerts now sf t rest).processed
    ∧ (processTenderAlerts now sf t (a :: rest)).emailsSent
        = (processTenderAlerts now sf t rest).emailsSent
    ∧ (processTenderAlerts now sf t (a :: rest)).errors
        = (processTenderAlerts now sf t rest).errors
    ∧ (processTenderAlerts now sf t (a :: rest)).emails
        = (processTenderAlerts now sf t rest).emails
    ∧ (processTenderAlerts now sf t (a :: rest)).evaluated
        = (processTenderAlerts now sf t rest).evaluated := by
  rcases h with h | ⟨u, hu, hent⟩
  · simp [processTenderAlerts, h]
  · simp [processTenderAlerts, hu, hent]

/-- Witness for C10: `baseConfig` has no populated user and is passed
through the immediate run untouched. -/
theorem c10_witness :
    baseConfig.user = none
    ∧ (processTenderAlerts 0 sendOk tenderT [baseConfig]).alerts
        = baseConfig :: (processTenderAlerts 0 sendOk tenderT []).alerts
    ∧ (processTenderAlerts 0 sendOk tenderT [baseConfig]).evaluated
        = (processTenderAlerts 0 sendOk tenderT []).evaluated :=
  ⟨rfl,
    (c10_entitlement_skip 0 sendOk tenderT baseConfig [] (Or.inl rfl)).1,
    (c10_entitlement_skip 0 sendOk tenderT baseConfig [] (Or.inl rfl)).2.2.2.2.2⟩

/-- C6: `findWeeklyAlerts` selects exactly the active, email-enabled,
weekly-frequency configurations never sent or last sent at least 7 days
before the run (`weeklyDueSpec`, worded from the claim); concretely, at run
instant `nowW` a configuration last sent 3 days ago is excluded while ones
last sent 8 days ago or never sent are included. -/
theorem c6_weekly_eligibility :
    (∀ (now : Int) (cs : List AlertConfiguration) (c : AlertConfiguration),
        c ∈ findWeeklyAlerts now cs ↔ c ∈ cs ∧ weeklyDueSpec now c)
    ∧ cfg3days ∉ findWeeklyAlerts nowW [cfg3days, cfg8days, cfgNeverSent]
    ∧ cfg8days ∈ findWeeklyAlerts nowW [cfg3days, cfg8days, cfgNeverSent]
    ∧ cfgNeverSent ∈ findWeeklyAlerts nowW [cfg3days, cfg8days, cfgNeverSent] := by
  refine ⟨?_, by decide, by decide, by decide⟩
  intro now cs c
  rw [findWeeklyAlerts, List.mem_filter]
  refine and_congr_right fun _ => ?_
  rw [weeklyQueryMatch, weeklyDueSpec]
  cases hl : c.emailSettings.lastSentAt with
  | none => simp [hl, and_assoc]
  | some d =>
      simp only [hl, Bool.and_eq_true, decide_eq_true_eq, Option.some.injEq,
        reduceCtorEq, false_or]
      constructor
      · rintro ⟨⟨⟨ha, hb⟩, hc⟩, hd⟩
        exact ⟨ha, hb, hc, d, rfl, by omega⟩
      · rintro ⟨ha, hb, hc, e, he, hd⟩
        cases he
        exact ⟨⟨⟨ha, hb⟩, hc⟩, by omega⟩

/-- C4: the exact-mode keyword "IT" performs whole-word matching over the
lower-cased searchable text: a record whose text is "DIGITAL" is not
matched (no substring leakage through the interior "it" of "digital"),
while any record whose title carries a standalone " IT " bounded by spaces
is matched, as is the record titled exactly "IT". -/
theorem c4_exact_whole_word :
    shouldTriggerForTender cfgITexact (tenderTitled ['D','I','G','I','T','A','L']) 0 = .ok false
    ∧ shouldTriggerForTender cfgITexact (tenderTitled ['I','T']) 0 = .ok true
    ∧ ∀ p q : JStr,
        shouldTriggerForTender cfgITexact (tenderTitled (p ++ [' ', 'I', 'T', ' '] ++ q)) 0
          = .ok true := by
  refine ⟨by rfl, by rfl, fun p q => ?_⟩
  have hlow : List.map Char.toLower [' ', 'I', 'T', ' '] = [' ', 'i', 't', ' '] := by decide
  have hit : ([' '] ++ jsToLower itChars ++ [' '] : JStr) = [' ', 'i', 't', ' '] := by decide
  have hsplit : jsToLower (p ++ [' ', 'I', 'T', ' '] ++ q)
      = List.map Char.toLower p ++ [' ', 'i', 't', ' '] ++ List.map Char.toLower q := by
    simp only [jsToLower, List.map_append, hlow]
  have hinc : jsIncludes
      (jsToLower (p ++ [' ', 'I', 'T', ' '] ++ q) ++ [' '] ++ jsToLower []
        ++ [' '] ++ jsToLower [])
      ([' '] ++ jsToLower itChars ++ [' ']) = true := by
    rw [hsplit, hit]
    simp only [jsIncludes, decide_eq_true_eq]
    refine ⟨List.map Char.toLower p,
      List.map Char.toLower q ++ [' '] ++ jsToLower [] ++ [' '] ++ jsToLower [], ?_⟩
    simp [jsToLower, List.append_assoc]
  rw [show shouldTriggerForTender cfgITexact (tenderTitled (p ++ [' ', 'I', 'T', ' '] ++ q)) 0
      = andThenCheck (checkKeywords cfgITexact (tenderTitled (p ++ [' ', 'I', 'T', ' '] ++ q)))
          (.ok true) from rfl, andThenCheck_ok_true]
  rw [show checkKeywords cfgITexact (tenderTitled (p ++ [' ', 'I', 'T', ' '] ++ q))
      = .ok (matchKeyword
          (jsToLower (p ++ [' ', 'I', 'T', ' '] ++ q) ++ [' '] ++ jsToLower []
            ++ [' '] ++ jsToLower [])
          ⟨itChars, .exact⟩ || false) from rfl]
  rw [matchKeyword_exact_of_includes hinc]
  rfl

/-- C2 counterexample: the claim that a failed dispatch leaves the failed
recipient's configuration stats unchanged is false in the immediate run —
with two matching alerts where the first alert's send fails, the failure
is logged and the second recipient is still processed, but the first
configuration's `totalMatches` has been incremented from 0 to 1 (and its
`lastMatchedTender` set), because `processTenderAlerts` calls
`updateStats` (`schedulerService.js` line 312) before attempting the send
(line 317); only `emailsSent` is withheld. -/
theorem c2_counterexample :
    (⟨1, "email"⟩ : RunError) ∈ (processTenderAlerts 0 sendFailsA tenderT [alertA, alertB]).errors
    ∧ (processTenderAlerts 0 sendFailsA tenderT [alertA, alertB]).processed = 2
    ∧ alertA.stats.totalMatches = 0
    ∧ ((processTenderAlerts 0 sendFailsA tenderT [alertA, alertB]).alerts.map
        fun x => x.stats.totalMatches) = [1, 1]
    ∧ ((processTenderAlerts 0 sendFailsA tenderT [alertA, alertB]).alerts.map
        fun x => x.stats.emailsSent) = [0, 1] :=
  ⟨by decide, by rfl, by rfl, by rfl, by rfl⟩

/-- C2 (amended): when dispatch to one recipient fails, the failure is
logged into the run's error list and the remaining recipients are still
processed. In daily/weekly summary runs the failed owner's configurations
are left entirely untouched and the rest of the owner loop proceeds
unchanged. In the immediate run the failed configuration's `emailsSent`
and `lastSentAt` are not updated, but its match stats (`totalMatches`,
`lastMatchedTender`, `lastMatchedAt`) have already been updated at match
time, before the send was attempted, regardless of the send outcome. -/
theorem c2_dispatch_failure_isolation
    (now : Int) (sf : Nat → Bool) (t : Tender) (a : AlertConfiguration) (u : User)
    (rest : List AlertConfiguration)
    (hu : a.user = some u) (hent : userEntitled u = true)
    (htr : shouldTriggerForTender a t now = .ok true)
    (hen : a.emailSettings.enabled = true)
    (hfreq : a.emailSettings.frequency = .immediate)
    (hfail : sf a.id = true) :
    (processTenderAlerts now sf t (a :: rest)).errors
        = ⟨a.id, "email"⟩ :: (processTenderAlerts now sf t rest).errors
    ∧ (processTenderAlerts now sf t (a :: rest)).alerts
        = updateStats a t now :: (processTenderAlerts now sf t rest).alerts
    ∧ (processTenderAlerts now sf t (a :: rest)).emailsSent
        = (processTenderAlerts now sf t rest).emailsSent
    ∧ (processTenderAlerts now sf t (a :: rest)).emails
        = (processTenderAlerts now sf t rest).emails
    ∧ (updateStats a t now).stats.emailsSent = a.stats.emailsSent
    ∧ (updateStats a t now).emailSettings.lastSentAt = a.emailSettings.lastSentAt
    ∧ (updateStats a t now).stats.totalMatches = a.stats.totalMatches + 1
    ∧ ∀ (recent : List Tender) (uid : Nat) (cfgs : List AlertConfiguration)
        (g : List (Nat × List AlertConfiguration)) (m : List Tender),
        collectMatches now recent cfgs = .ok m →
        removeDuplicateTenders m ≠ [] →
        sf uid = true →
        processUserDaily now sf recent uid cfgs
            = ⟨cfgs, [], 0, 0, [⟨uid, "daily_summary"⟩]⟩
        ∧ runSummaryUsers now sf recent ((uid, cfgs) :: g)
            = ⟨(uid, cfgs) :: (runSummaryUsers now sf recent g).groups,
                (runSummaryUsers now sf recent g).emails,
                (runSummaryUsers now sf recent g).processed,
                (runSummaryUsers now sf recent g).emailsSent,
                ⟨uid, "daily_summary"⟩ :: (runSummaryUsers now sf recent g).errors⟩ := by
  have himm : processTenderAlerts now sf t (a :: rest)
      = { processTenderAlerts now sf t rest with
            alerts := updateStats a t now :: (processTenderAlerts now sf t rest).alerts
            processed := (processTenderAlerts now sf t rest).processed + 1
            errors := ⟨a.id, "email"⟩ :: (processTenderAlerts now sf t rest).errors
            evaluated := a.id :: (processTenderAlerts now sf t rest).evaluated } := by
    rw [processTenderAlerts, hu]
    simp only [hent, Bool.not_true, Bool.false_eq_true, if_false, htr]
    rw [if_pos ⟨by simp [updateStats, hen], by simp [updateStats, hfreq]⟩, if_pos hfail]
  refine ⟨by rw [himm], by rw [himm], by rw [himm], by rw [himm],
    by simp [updateStats], by simp [updateStats], by simp [updateStats], ?_⟩
  intro recent uid cfgs g m hcm hne hsf
  have huser : processUserDaily now sf recent uid cfgs
      = ⟨cfgs, [], 0, 0, [⟨uid, "daily_summary"⟩]⟩ := by
    unfold processUserDaily
    rw [hcm]
    simp only [List.isEmpty_iff, hne, if_false, hsf, if_true]
  exact ⟨huser, by simp [runSummaryUsers, huser]⟩

/-- Witness for C2 (amended): the concrete two-alert immediate run with the
first send failing, and a one-owner daily run whose send fails. -/
theorem c2_witness :
    (processTenderAlerts 0 sendFailsA tenderT [alertA, alertB]).errors
      = ⟨alertA.id, "email"⟩ :: (processTenderAlerts 0 sendFailsA tenderT [alertB]).errors
    ∧ processUserDaily 0 sendFailsA [tenderT] 1 [alertDaily1]
      = ⟨[alertDaily1], [], 0, 0, [⟨1, "daily_summary"⟩]⟩ := by
  have h := c2_dispatch_failure_isolation 0 sendFailsA tenderT alertA userA [alertB]
    rfl rfl (by rfl) rfl rfl (by rfl)
  exact ⟨h.1,
    (h.2.2.2.2.2.2.2 [tenderT] 1 [alertDaily1] [] [tenderT] (by rfl) (by decide) (by rfl)).1⟩

/-- C7: in a daily (or weekly) run, an owner whose deduplicated match set
is empty is skipped entirely: the per-owner step sends no email, logs no
error, and leaves every one of the owner's configurations — all their
stats fields included — unchanged (only the run's `processed` counter is
bumped, `schedulerService.js` line 446), and the rest of the owner loop is
unaffected. -/
theorem c7_empty_matchset_frame
    (now : Int) (sf : Nat → Bool) (recent : List Tender) (uid : Nat)
    (cfgs : List AlertConfiguration) (g : List (Nat × List AlertConfiguration))
    (m : List Tender)
    (hm : collectMatches now recent cfgs = .ok m)
    (hempty : removeDuplicateTenders m = []) :
    processUserDaily now sf recent uid cfgs = ⟨cfgs, [], 0, 1, []⟩
    ∧ runSummaryUsers now sf recent ((uid, cfgs) :: g)
        = ⟨(uid, cfgs) :: (runSummaryUsers now sf recent g).groups,
            (runSummaryUsers now sf recent g).emails,
            1 + (runSummaryUsers now sf recent g).processed,
            (runSummaryUsers now sf recent g).emailsSent,
            (runSummaryUsers now sf recent g).errors⟩ := by
  have h1 : processUserDaily now sf recent uid cfgs = ⟨cfgs, [], 0, 1, []⟩ := by
    unfold processUserDaily
    rw [hm]
    simp [hempty]
  exact ⟨h1, by simp [runSummaryUsers, h1]⟩

/-- Witness for C7: an owner whose only configuration requires keyword
"zz" against a lone record titled "hello": the deduplicated match set is
empty, nothing is sent and nothing changes. -/
theorem c7_witness :
    collectMatches 0 [tenderHello] [cfgNoMatch] = .ok []
    ∧ processUserDaily 0 sendOk [tenderHello] 1 [cfgNoMatch]
        = ⟨[cfgNoMatch], [], 0, 1, []⟩ :=
  ⟨by rfl,
    (c7_empty_matchset_frame 0 sendOk [tenderHello] 1 [cfgNoMatch] [] [] (by rfl) (by rfl)).1⟩

/-- C1 counterexample: the claim that an owner's notification contains a
record matched by two of their configurations exactly once is false of the
rendered notification content — with two configurations of owner 1 both
matching record 7, the daily run dispatches one email whose deduplicated id
list holds 7 once, but `sendDailySummary` re-groups that list per
configuration (`groupTendersByAlert`, `emailService.js` lines 195-206) and
both the HTML and the text summary bodies render the record once per
matching section: its deep-link fact appears twice in each body. -/
theorem c1_counterexample :
    shouldTriggerForTender cfgD1 tenderT 0 = .ok true
    ∧ shouldTriggerForTender cfgD2 tenderT 0 = .ok true
    ∧ (processUserDaily 0 sendOk [tenderT] 1 [cfgD1, cfgD2]).emails = [⟨1, [7]⟩]
    ∧ groupTendersByAlert 0 (removeDuplicateTenders [tenderT, tenderT]) [cfgD1, cfgD2]
        = .ok [⟨"base", [tenderT]⟩, ⟨"base", [tenderT]⟩]
    ∧ (generateSummaryEmailHTMLFacts [⟨"base", [tenderT]⟩, ⟨"base", [tenderT]⟩]
        "daily" userA).count (.link 7) = 2
    ∧ (generateSummaryEmailTextFacts [⟨"base", [tenderT]⟩, ⟨"base", [tenderT]⟩]
        "daily" userA).count (.link 7) = 2 :=
  ⟨by rfl, by rfl, by rfl, by rfl, by rfl, by rfl⟩

/-- C1 (amended): in the per-owner step of a daily (or weekly) summary run
whose dispatch succeeds, when two distinct configurations of the owner both
match the same record, the single dispatched notification carries the
deduplicated match set in which that record's id appears exactly once, and
every configuration of the owner that the record satisfies has its
`totalMatches` incremented once per deduplicated record it matched — the
shared record counted exactly once for each such configuration. The body,
however, is sectioned per originating configuration (`groupTendersByAlert`
applied to the deduplicated set): the record is listed exactly once in each
matching configuration's section and in no non-matching section, so across
sections it can appear more than once in the rendered content. -/
theorem c1_dedup_once_stats_per_config
    (now : Int) (sf : Nat → Bool) (recent : List Tender) (uid : Nat)
    (cfgs : List AlertConfiguration) (m : List Tender) (r : Tender)
    (a1 a2 : AlertConfiguration)
    (hnd : (recent.map Tender.id).Nodup)
    (hm : collectMatches now recent cfgs = .ok m)
    (hsf : sf uid = false)
    (hr : r ∈ recent)
    (h1 : a1 ∈ cfgs) (h2 : a2 ∈ cfgs) (hne : a1 ≠ a2)
    (ht1 : shouldTriggerForTender a1 r now = .ok true)
    (ht2 : shouldTriggerForTender a2 r now = .ok true) :
    (processUserDaily now sf recent uid cfgs).emails
        = [⟨uid, (removeDuplicateTenders m).map Tender.id⟩]
    ∧ ((removeDuplicateTenders m).map Tender.id).count r.id = 1
    ∧ (processUserDaily now sf recent uid cfgs).alerts
        = cfgs.map (dailyStatsUpdate now (removeDuplicateTenders m))
    ∧ groupTendersByAlert now (removeDuplicateTenders m) cfgs
        = .ok (cfgs.map fun c =>
            ⟨c.name, (removeDuplicateTenders m).filter fun t =>
              okTrue (shouldTriggerForTender c t now)⟩)
    ∧ (∀ a ∈ cfgs, shouldTriggerForTender a r now = .ok true →
        (dailyStatsUpdate now (removeDuplicateTenders m) a).stats.totalMatches
          = a.stats.totalMatches
            + ((removeDuplicateTenders m).filter fun t =>
                okTrue (shouldTriggerForTender a t now)).length
        ∧ r ∈ ((removeDuplicateTenders m).filter fun t =>
            okTrue (shouldTriggerForTender a t now))
        ∧ (((removeDuplicateTenders m).filter fun t =>
              okTrue (shouldTriggerForTender a t now)).map Tender.id).count r.id = 1)
    ∧ ∀ a ∈ cfgs, shouldTriggerForTender a r now ≠ .ok true →
        r ∉ ((removeDuplicateTenders m).filter fun t =>
            okTrue (shouldTriggerForTender a t now)) := by
  have htotal := collectMatches_ok_total hm
  have hmeq := collectMatches_eq_of_ok hm
  have hrm : r ∈ m := by
    rw [hmeq]
    refine List.mem_flatMap.mpr ⟨a1, h1, ?_⟩
    refine List.mem_filter.mpr ⟨hr, ?_⟩
    rw [ht1]
    rfl
  have hmsub : ∀ t ∈ m, t ∈ recent := by
    intro t ht
    rw [hmeq] at ht
    obtain ⟨a, _, htf⟩ := List.mem_flatMap.mp ht
    exact (List.mem_filter.mp htf).1
  have hridmem : r.id ∈ (removeDuplicateTenders m).map Tender.id := by
    rw [removeDuplicateTenders_id_mem]
    exact List.mem_map.mpr ⟨r, hrm, rfl⟩
  have hruniq : r ∈ removeDuplicateTenders m := by
    obtain ⟨t, htu, htid⟩ := List.mem_map.mp hridmem
    have htm : t ∈ m := removeDuplicateTenders_sub m t htu
    have htrec : t ∈ recent := hmsub t htm
    have heq : t = r := List.inj_on_of_nodup_map hnd htrec hr htid
    rwa [heq] at htu
  have hcount : ((removeDuplicateTenders m).map Tender.id).count r.id = 1 :=
    List.count_eq_one_of_mem (removeDuplicateTenders_nodup m) hridmem
  have htotaluniq : ∀ a ∈ cfgs, ∀ t ∈ removeDuplicateTenders m,
      isOkE (shouldTriggerForTender a t now) = true := fun a ha t ht =>
    htotal a ha t (hmsub t (removeDuplicateTenders_sub m t ht))
  have hloop := statsLoop_eq_map htotaluniq
  have hne2 : removeDuplicateTenders m ≠ [] := by
    intro hcon
    rw [hcon] at hruniq
    cases hruniq
  have hout : processUserDaily now sf recent uid cfgs
      = ⟨cfgs.map (dailyStatsUpdate now (removeDuplicateTenders m)),
          [⟨uid, (removeDuplicateTenders m).map Tender.id⟩], 1, 1, []⟩ := by
    unfold processUserDaily
    rw [hm]
    simp only [List.isEmpty_eq_true, hne2, if_false, hsf, Bool.false_eq_true, hloop]
  refine ⟨by rw [hout], hcount, by rw [hout],
    groupTendersByAlert_eq_map htotaluniq, ?_, ?_⟩
  · intro a ha hta
    have hrfilter : r ∈ (removeDuplicateTenders m).filter fun t =>
        okTrue (shouldTriggerForTender a t now) := by
      refine List.mem_filter.mpr ⟨hruniq, ?_⟩
      rw [hta]
      rfl
    refine ⟨dailyStatsUpdate_totalMatches now _ a, hrfilter, ?_⟩
    have hsubl : List.Sublist ((removeDuplicateTenders m).filter fun t =>
        okTrue (shouldTriggerForTender a t now)) (removeDuplicateTenders m) :=
      List.filter_sublist _
    have hnodup : (((removeDuplicateTenders m).filter fun t =>
        okTrue (shouldTriggerForTender a t now)).map Tender.id).Nodup :=
      (hsubl.map Tender.id).nodup (removeDuplicateTenders_nodup m)
    exact List.count_eq_one_of_mem hnodup
      (List.mem_map.mpr ⟨r, hrfilter, rfl⟩)
  · intro a ha hnta hmem
    exact hnta (okTrue_eq_true (List.mem_filter.mp hmem).2)

/-- Witness for C1 (amended): one owner with two filterless daily
configurations and one candidate record with id 7: the notification
carries id 7 once, the body grouping gives each configuration its filtered
section, and both configurations' `totalMatches` go from 0 to 1. -/
theorem c1_witness :
    (processUserDaily 0 sendOk [tenderT] 1 [cfgD1, cfgD2]).emails = [⟨1, [7]⟩]
    ∧ groupTendersByAlert 0 (removeDuplicateTenders [tenderT, tenderT]) [cfgD1, cfgD2]
        = .ok ([cfgD1, cfgD2].map fun c =>
            ⟨c.name, (removeDuplicateTenders [tenderT, tenderT]).filter fun t =>
              okTrue (shouldTriggerForTender c t 0)⟩)
    ∧ ∀ a ∈ [cfgD1, cfgD2], shouldTriggerForTender a tenderT 0 = .ok true →
        (dailyStatsUpdate 0 (removeDuplicateTenders [tenderT, tenderT]) a).stats.totalMatches
          = a.stats.totalMatches
            + ((removeDuplicateTenders [tenderT, tenderT]).filter fun t =>
                okTrue (shouldTriggerForTender a t 0)).length
        ∧ tenderT ∈ ((removeDuplicateTenders [tenderT, tenderT]).filter fun t =>
            okTrue (shouldTriggerForTender a t 0))
        ∧ (((removeDuplicateTenders [tenderT, tenderT]).filter fun t =>
              okTrue (shouldTriggerForTender a t 0)).map Tender.id).count tenderT.id = 1 := by
  have h := c1_dedup_once_stats_per_config 0 sendOk [tenderT] 1 [cfgD1, cfgD2]
    [tenderT, tenderT] tenderT cfgD1 cfgD2
    (by decide) (by rfl) (by rfl) (by decide)
    (by decide) (by decide) (by decide) (by rfl) (by rfl)
  exact ⟨h.1, h.2.2.2.1, h.2.2.2.2.1⟩

theorem alertTenderFacts_mirror (t : Tender) (f : EmailFact)
    (hf : f ∈ alertTenderFactsHTML t) (hd : ∀ d, f ≠ .descriptionExcerpt d) :
    f ∈ alertTenderFactsText t := by
  unfold alertTenderFactsHTML at hf
  unfold alertTenderFactsText
  rcases List.mem_append.mp hf with h | h
  · rcases List.mem_append.mp h with h | h
    · simp only [List.mem_cons, List.not_mem_nil, or_false] at h
      rcases h with rfl | rfl | rfl | rfl | rfl | rfl | rfl | rfl
      · simp
      · simp
      · simp
      · exact absurd rfl (hd _)
      · simp
      · simp
      · simp
      · simp
    · exact List.mem_append.mpr (Or.inl (List.mem_append.mpr (Or.inr h)))
  · exact List.mem_append.mpr (Or.inr h)

theorem summarySectionFacts_eq : summarySectionFactsHTML = summarySectionFactsText := rfl

/-- C9 counterexample: the claim that the text body mirrors every fact of
the HTML body is false — the immediate-alert HTML template interpolates
the record's description excerpt (`emailService.js` line 223) but the text
template (lines 299-320) renders no description at all. -/
theorem c9_counterexample :
    EmailFact.descriptionExcerpt ['s', 'e', 'c', 'r', 'e', 't']
        ∈ generateAlertEmailHTMLFacts [tenderDesc] baseConfig
    ∧ EmailFact.descriptionExcerpt ['s', 'e', 'c', 'r', 'e', 't']
        ∉ generateAlertEmailTextFacts [tenderDesc] baseConfig :=
  ⟨by decide, by decide⟩

/-- C9 (amended): every fact interpolated into an HTML notification body
also appears in the corresponding text body, with exactly two exceptions:
the record description excerpt, rendered only in the immediate-alert HTML
card, and the aggregate total-match count, rendered only in the summary
HTML header. -/
theorem c9_text_mirror
    (ts : List Tender) (cfg : AlertConfiguration) (gs : List GroupedEntry)
    (frequency : String) (u : User) (f : EmailFact) :
    (f ∈ generateAlertEmailHTMLFacts ts cfg →
        (∀ d, f ≠ .descriptionExcerpt d) →
        f ∈ generateAlertEmailTextFacts ts cfg)
    ∧ (f ∈ generateSummaryEmailHTMLFacts gs frequency u →
        (∀ n, f ≠ .totalCount n) →
        f ∈ generateSummaryEmailTextFacts gs frequency u) := by
  constructor
  · intro hf hd
    unfold generateAlertEmailHTMLFacts at hf
    unfold generateAlertEmailTextFacts
    rcases List.mem_append.mp hf with h | h
    · rcases List.mem_append.mp h with h | h
      · simp only [List.mem_cons, List.not_mem_nil, or_false] at h
        rcases h with rfl | rfl
        · simp
        · simp
      · obtain ⟨t, ht, hft⟩ := List.mem_flatMap.mp h
        have hmem := alertTenderFacts_mirror t f hft hd
        exact List.mem_append.mpr
          (Or.inl (List.mem_append.mpr (Or.inr (List.mem_flatMap.mpr ⟨t, ht, hmem⟩))))
    · exact List.mem_append.mpr (Or.inr h)
  · intro hf hn
    unfold generateSummaryEmailHTMLFacts at hf
    unfold generateSummaryEmailTextFacts
    by_cases h0 : totalTendersOf gs = 0
    · rw [if_pos h0] at hf
      simp only [List.mem_cons, List.not_mem_nil, or_false] at hf
      rcases hf with rfl | rfl
      · simp
      · simp [h0]
    · rw [if_neg h0] at hf
      rw [summarySectionFacts_eq] at hf
      rcases List.mem_append.mp hf with h | h
      · rcases List.mem_append.mp h with h | h
        · simp only [List.mem_cons, List.not_mem_nil, or_false] at h
          rcases h with rfl | rfl | rfl
          · simp
          · exact absurd rfl (hn _)
          · simp
        · simp only [List.mem_append]
          tauto
      · simp only [List.mem_append]
        tauto

/-- Witness for C9 (amended): the organization-name fact of a summary
section appears in both renderings. -/
theorem c9_witness :
    EmailFact.tenderTitle ['h', 'e', 'l', 'l', 'o']
      ∈ generateSummaryEmailTextFacts [⟨"base", [tenderHello]⟩] "daily" userA :=
  (c9_text_mirror [] baseConfig [⟨"base", [tenderHello]⟩] "daily" userA
      (.tenderTitle ['h', 'e', 'l', 'l', 'o'])).2
    (by decide) (fun n h => EmailFact.noConfusion h)

end TendersBackend
